import Mathlib

/-!
Verification development for the devtoagent repository.

The repository is a CLI that drives a swarm of three agents (writer,
image, publisher) to produce and publish a Dev.to article.  We shallowly
embed the pure decision logic of the Python sources:

* `src/tools/devto_api.py`   — `create_devto_article`
* `src/tools/image_upload.py` — `upload_image`
* `src/main.py`              — `validate_environment`, `create_article_swarm`,
  `generate_article`, `main` (argument parsing and exit code)

External effects (HTTP requests, the filesystem, the agent engine) are
modelled as oracle parameters: the HTTP layer is an `HttpOutcome` value
describing what `requests.post` would have produced, the filesystem is a
`Bool`/`Except` pair, and the swarm engine is an `Except` outcome.  Each
tool additionally returns the list of requests it actually sent, so that
"no external request was attempted" is expressible.  A Python execution
path that raises an uncaught exception is modelled as `Except.error`
carrying the exception class.
-/

/-- Shallow model of a parsed JSON value (the result of `response.json()`),
and of the heterogeneous dicts the Python tools return. -/
inductive J where
  | jstr : String → J
  | jnum : Int → J
  | jbool : Bool → J
  | jnull : J
  | jobj : List (String × J) → J
  | jlist : List J → J

/-- Association-list lookup, modelling Python `dict` access on the
string-keyed dicts used by the tools. -/
def jfind : List (String × J) → String → Option J
  | [], _ => none
  | (k, v) :: rest, key => if k == key then some v else jfind rest key

/-- Python truthiness of a JSON value (`if data.get("path")`, etc.). -/
def jTruthy : J → Bool
  | .jnull => false
  | .jbool b => b
  | .jnum n => n != 0
  | .jstr s => s != ""
  | .jobj fs => !fs.isEmpty
  | .jlist xs => !xs.isEmpty

/-- Python `str()` of a JSON value, as used in f-string interpolation.
The container cases abbreviate Python's recursive repr; no claim depends
on their exact text. -/
def jToStr : J → String
  | .jstr s => s
  | .jnum n => toString n
  | .jbool true => "True"
  | .jbool false => "False"
  | .jnull => "None"
  | .jobj _ => "[dict]"
  | .jlist _ => "[list]"

/-- Characters removed by Python `str.strip()` (ASCII whitespace). -/
def isPySpace (c : Char) : Bool :=
  c == ' ' || c == '\t' || c == '\n' || c == '\r' || c == '\x0b' || c == '\x0c'

/-- Python `str.strip()`: remove leading and trailing whitespace. -/
def pyStrip (s : String) : String :=
  String.mk (((s.data.dropWhile isPySpace).reverse.dropWhile isPySpace).reverse)

/-- Python `str.lower()` restricted to the ASCII range of `Char.toLower`. -/
def pyLower (s : String) : String :=
  String.mk (s.data.map Char.toLower)

/-- Python `str.replace(" ", "")`: delete every space character. -/
def pyRemoveSpaces (s : String) : String :=
  String.mk (s.data.filter (fun c => c != ' '))

/-- The per-tag transformation of `create_devto_article`:
`tag.strip().lower().replace(" ", "")`. -/
def tagTransform (t : String) : String :=
  pyRemoveSpaces (pyLower (pyStrip t))

/-- Outcome of an attempted `requests.post` call: either the request
machinery raised (`requests.RequestException`) or a response arrived with
a status code, a parsed JSON body, and a raw text body. -/
inductive HttpOutcome where
  | exc : String → HttpOutcome
  | resp : Nat → J → String → HttpOutcome

/-- The article payload `create_devto_article` builds and posts
(the inner `"article"` dict of `article_data`). -/
structure DevtoArticle where
  title : String
  body_markdown : String
  published : Bool
  tags : List String
  description : String
  main_image : Option String
deriving DecidableEq

/-- Builds the article payload exactly as `create_devto_article` does:
tags are split on commas, stripped, lowercased, despaced and capped at 4;
the description is truncated to 140 characters when longer; the cover
image is attached only when the URL string is truthy (non-empty). -/
def mkArticlePayload (title body_markdown tags description cover_image_url : String) :
    DevtoArticle :=
  { title, body_markdown,
    published := false,
    tags := ((tags.splitOn ",").map tagTransform).take 4,
    description := if description.length > 140 then description.take 140 else description,
    main_image := if cover_image_url != "" then some cover_image_url else none }

/-- Embedding of `create_devto_article` (src/tools/devto_api.py).
`api_key` models `os.environ.get("DEV_TO_API_KEY")`; `http` is the oracle
outcome of the `requests.post` call.  Returns the Python return value
(`Except.error` marks an uncaught Python exception) together with the
list of article payloads actually posted. -/
def create_devto_article (api_key : Option String)
    (title body_markdown tags description cover_image_url : String)
    (http : HttpOutcome) :
    Except String (List (String × J)) × List DevtoArticle :=
  match api_key with
  | none =>
      (.ok [("status", .jstr "error"),
            ("message", .jstr "DEV_TO_API_KEY environment variable not set")], [])
  | some key =>
      if key == "" then
        (.ok [("status", .jstr "error"),
              ("message", .jstr "DEV_TO_API_KEY environment variable not set")], [])
      else
        let article := mkArticlePayload title body_markdown tags description cover_image_url
        match http with
        | .exc e =>
            (.ok [("status", .jstr "error"),
                  ("message", .jstr ("Request failed: " ++ e))], [article])
        | .resp code body text =>
            if code == 201 then
              match body with
              | .jobj fs =>
                  (.ok [("status", .jstr "success"),
                        ("message", .jstr "Article created as draft"),
                        ("article_id", (jfind fs "id").getD .jnull),
                        ("article_url", (jfind fs "url").getD .jnull),
                        ("edit_url",
                          if jTruthy ((jfind fs "path").getD .jnull) then
                            .jstr ("https://dev.to/" ++
                              jToStr ((jfind fs "path").getD .jnull) ++ "/edit")
                          else .jnull),
                        ("title", (jfind fs "title").getD .jnull)], [article])
              | _ =>
                  -- `data.get("id")` on a non-dict JSON body raises.
                  (.error "AttributeError: get", [article])
            else
              (.ok [("status", .jstr "error"),
                    ("message", .jstr ("Failed to create article: " ++ toString code)),
                    ("details", .jstr text)], [article])

/-- Embedding of `upload_image` (src/tools/image_upload.py).
`api_key` models `os.environ.get("IMGBB_API_KEY")`; `file_exists` models
`os.path.exists(image_path)`; `read_file` models reading and
base64-encoding the file; `http` is the oracle outcome of the
`requests.post` upload.  The second component lists the `(key, image)`
form payloads actually posted. -/
def upload_image (api_key : Option String) (image_path : String)
    (file_exists : Bool) (read_file : Except String String)
    (http : HttpOutcome) :
    Except String (List (String × J)) × List (String × String) :=
  match api_key with
  | none =>
      (.ok [("status", .jstr "error"),
            ("message", .jstr "IMGBB_API_KEY environment variable not set. Image will not be uploaded."),
            ("url", .jnull)], [])
  | some key =>
      if key == "" then
        (.ok [("status", .jstr "error"),
              ("message", .jstr "IMGBB_API_KEY environment variable not set. Image will not be uploaded."),
              ("url", .jnull)], [])
      else if !file_exists then
        (.ok [("status", .jstr "error"),
              ("message", .jstr ("Image file not found: " ++ image_path)),
              ("url", .jnull)], [])
      else
        match read_file with
        | .error e =>
            (.ok [("status", .jstr "error"),
                  ("message", .jstr ("Failed to read image file: " ++ e)),
                  ("url", .jnull)], [])
        | .ok image_data =>
            match http with
            | .exc e =>
                (.ok [("status", .jstr "error"),
                      ("message", .jstr ("Request failed: " ++ e)),
                      ("url", .jnull)], [(key, image_data)])
            | .resp code body text =>
                if code == 200 then
                  match body with
                  | .jobj fs =>
                      if jTruthy ((jfind fs "success").getD .jnull) then
                        -- `image_url = data["data"]["url"]`: bracket indexing
                        -- raises on a missing key or non-dict value.
                        match jfind fs "data" with
                        | some (.jobj ds) =>
                            match jfind ds "url" with
                            | some u =>
                                (.ok [("status", .jstr "success"),
                                      ("message", .jstr "Image uploaded successfully"),
                                      ("url", u),
                                      ("delete_url", (jfind ds "delete_url").getD .jnull),
                                      ("display_url", (jfind ds "display_url").getD .jnull)],
                                 [(key, image_data)])
                            | none => (.error "KeyError: url", [(key, image_data)])
                        | some _ => (.error "TypeError: not subscriptable", [(key, image_data)])
                        | none => (.error "KeyError: data", [(key, image_data)])
                      else
                        -- `data.get("error", {}).get("message", "Unknown error")`
                        match jfind fs "error" with
                        | none =>
                            (.ok [("status", .jstr "error"),
                                  ("message", .jstr "Upload failed: Unknown error"),
                                  ("url", .jnull)], [(key, image_data)])
                        | some (.jobj es) =>
                            (.ok [("status", .jstr "error"),
                                  ("message", .jstr ("Upload failed: " ++
                                    (match jfind es "message" with
                                     | some v => jToStr v
                                     | none => "Unknown error"))),
                                  ("url", .jnull)], [(key, image_data)])
                        | some _ =>
                            -- `.get` on a non-dict error value raises.
                            (.error "AttributeError: get", [(key, image_data)])
                  | _ =>
                      -- `data.get("success")` on a non-dict JSON body raises.
                      (.error "AttributeError: get", [(key, image_data)])
                else
                  (.ok [("status", .jstr "error"),
                        ("message", .jstr ("Upload failed with status " ++ toString code ++
                          ": " ++ text)),
                        ("url", .jnull)], [(key, image_data)])

/-- A returned dict is well formed when it carries a `"status"` field equal
to `"success"` or `"error"` and a string `"message"` field. -/
def hasStatusAndMessage (r : List (String × J)) : Bool :=
  (match jfind r "status" with
   | some (.jstr s) => s == "success" || s == "error"
   | _ => false)
  &&
  (match jfind r "message" with
   | some (.jstr _) => true
   | _ => false)

/-- A tool call result is structured when the Python call returned (did not
raise) and the returned dict is well formed. -/
def toolResultOk (p : Except String (List (String × J))) : Bool :=
  match p with
  | .ok r => hasStatusAndMessage r
  | .error _ => false

/-- Shape assumption on a Dev.to HTTP outcome under which
`create_devto_article` cannot raise: a 201 response body must parse to a
JSON object (dict). -/
def devtoWellShaped (o : HttpOutcome) : Bool :=
  match o with
  | .exc _ => true
  | .resp code body _ =>
      code != 201 ||
      (match body with
       | .jobj _ => true
       | _ => false)

/-- Shape assumption on an ImgBB HTTP outcome under which `upload_image`
cannot raise: a 200 response body must be a JSON object; when its
`success` field is truthy it must hold a `data` object with a `url` key,
and otherwise any `error` field present must itself be an object. -/
def imgbbWellShaped (o : HttpOutcome) : Bool :=
  match o with
  | .exc _ => true
  | .resp code body _ =>
      code != 200 ||
      (match body with
       | .jobj fs =>
          if jTruthy ((jfind fs "success").getD .jnull) then
            match jfind fs "data" with
            | some (.jobj ds) => (jfind ds "url").isSome
            | _ => false
          else
            match jfind fs "error" with
            | none => true
            | some (.jobj _) => true
            | some _ => false
       | _ => false)

/-- Failure modes of reading the `--file` input in `generate_article`:
`FileNotFoundError` is handled separately from any other exception. -/
inductive FileErr where
  | notFound : FileErr
  | other : String → FileErr

/-- The fields of the strands `SwarmResult` that `generate_article` reads:
`status` (already stringified, as `str(result.status)` produces it),
`node_history` node ids, `execution_count` and `execution_time`. -/
structure SwarmRes where
  status : String
  node_history : List String
  execution_count : Int
  execution_time : Int
deriving DecidableEq

/-- The initial prompt for a free-text topic (text abbreviated to its
topic interpolation; no claim depends on the prompt wording). -/
def topicPrompt (input_data : String) : String :=
  "Please write a comprehensive technical article for Dev.to on the following topic: " ++
  input_data

/-- The initial prompt built from the contents of a `--file` input. -/
def filePrompt (content : String) : String :=
  "Please create a comprehensive technical article for Dev.to based on the following content: " ++
  content

/-- The initial prompt built from a `--content` input. -/
def contentPrompt (input_data : String) : String :=
  "Please create a comprehensive technical article for Dev.to based on the following content: " ++
  input_data

/-- The `try: result = swarm(initial_prompt) ... except Exception` tail of
`generate_article`: a raised exception becomes a status-`"error"` dict
with the error message; a completed run is summarised into the result
dict. -/
def runSwarmCall (swarmRun : Except String SwarmRes) : List (String × J) :=
  match swarmRun with
  | .ok r =>
      [("status", .jstr r.status),
       ("agents_used", .jlist (r.node_history.map .jstr)),
       ("iterations", .jnum r.execution_count),
       ("execution_time_ms", .jnum r.execution_time),
       ("result", .jobj [("status", .jstr r.status)])]
  | .error e =>
      [("status", .jstr "error"), ("error", .jstr e)]

/-- Embedding of `generate_article` (src/main.py).  `fileRead` models
opening and reading `input_data` when `input_type = "file"`; `swarmRun`
models the outcome of executing the swarm on the constructed prompt
(`Except.error` is a raised exception, caught by the function). -/
def generate_article (input_data input_type : String)
    (fileRead : Except FileErr String) (swarmRun : Except String SwarmRes) :
    List (String × J) :=
  if input_type == "topic" then
    runSwarmCall swarmRun
  else if input_type == "file" then
    match fileRead with
    | .error .notFound =>
        [("status", .jstr "error"), ("error", .jstr ("File not found: " ++ input_data))]
    | .error (.other e) =>
        [("status", .jstr "error"), ("error", .jstr ("Error reading file: " ++ e))]
    | .ok _content => runSwarmCall swarmRun
  else
    runSwarmCall swarmRun

/-- Python truthiness of `os.environ.get(var)`: the variable must be set
and non-empty. -/
def envGetTruthy (v : Option String) : Bool :=
  match v with
  | none => false
  | some s => s != ""

/-- Embedding of `validate_environment` (src/main.py): true iff
`DEV_TO_API_KEY` is set and non-empty (the AWS check only warns). -/
def validate_environment (devKey : Option String) : Bool :=
  envGetTruthy devKey

/-- The argument-parsing step of `main` (src/main.py): given `sys.argv`
(program name first), returns `(input_type, input_data)`, or `none` when
fewer than two entries are present (usage is printed and the process
exits 1).  `--file`/`--content` take effect only when a following value
exists; otherwise the first argument is the free-text topic. -/
def parse_args (argv : List String) : Option (String × String) :=
  match argv with
  | _prog :: a1 :: rest =>
      if a1 == "--file" && !rest.isEmpty then some ("file", rest.headD "")
      else if a1 == "--content" && !rest.isEmpty then some ("content", rest.headD "")
      else some ("topic", a1)
  | _ => none

/-- Embedding of `main` (src/main.py), reduced to its exit code and the
result dict it prints: exit 1 on missing arguments, exit 1 when
`validate_environment` fails, and otherwise exit 0 after running
`generate_article` — the run's result status is printed but never
consulted for the exit code. -/
def mainRun (argv : List String) (devKey : Option String)
    (fileRead : Except FileErr String) (swarmRun : Except String SwarmRes) :
    Nat × Option (List (String × J)) :=
  match parse_args argv with
  | none => (1, none)
  | some (input_type, input_data) =>
      if !validate_environment devKey then (1, none)
      else (0, some (generate_article input_data input_type fileRead swarmRun))

/-- The swarm configuration assembled by `create_article_swarm`
(src/main.py): node names, entry point and the four budgets. -/
structure SwarmConfig where
  nodes : List String
  entry_point : String
  max_handoffs : Nat
  max_iterations : Nat
  execution_timeout : Rat
  node_timeout : Rat
deriving DecidableEq

/-- Embedding of `create_article_swarm` (src/main.py): the three agents
created by `create_writer_agent`, `create_image_agent` and
`create_publisher_agent` (named in src/agents/), with the writer as entry
point and all four budgets supplied explicitly at construction. -/
def create_article_swarm : SwarmConfig :=
  { nodes := ["writer_agent", "image_agent", "publisher_agent"],
    entry_point := "writer_agent",
    max_handoffs := 10,
    max_iterations := 15,
    execution_timeout := 600,
    node_timeout := 300 }

/-- Modelled from the spec: the three-way directive a node invocation
produces (spec section 4.3), plus the distinguished timeout outcome.  The
dispatcher itself (the strands `Swarm` class) is not part of this
repository's sources; only its configuration in `create_article_swarm`
is. -/
inductive NodeOutcome where
  | handoff : String → String → NodeOutcome
  | completion : String → NodeOutcome
  | fault : String → String → NodeOutcome
  | timedOut : NodeOutcome
deriving DecidableEq

/-- Modelled from the spec: the terminal statuses of a swarm run (spec
section 4.4).  `outOfFuel` is an artefact of the fuelled loop and is
unreachable with adequate fuel. -/
inductive SwarmStatus where
  | completed : SwarmStatus
  | failedMaxHandoffs : SwarmStatus
  | failedMaxIterations : SwarmStatus
  | failedTimeoutNode : SwarmStatus
  | failedTimeoutExecution : SwarmStatus
  | failedError : String → SwarmStatus
  | outOfFuel : SwarmStatus
deriving DecidableEq

/-- Modelled from the spec: the mutable `SwarmRunState` (spec section 3):
active node, handoff and iteration counters, the ordered history of
invoked nodes, and the append-only context transcript. -/
structure RunState where
  currentNode : String
  handoffCount : Nat
  iterationCount : Nat
  history : List String
  context : List (String × String)
deriving DecidableEq

/-- Modelled from the spec: the dispatcher loop of spec section 4.4 (the
strands `Swarm` execution engine, absent from src/).  `beh` scripts each
node invocation (by invocation index and node id); `elapsed` is the
execution-timeout oracle consulted at each loop boundary.  Per section
4.4c and scenario D, an over-budget handoff directive terminates the run
with `failedMaxHandoffs` after recording the handing-off node's
invocation but before invoking the target. -/
def runLoop (mh mi : Nat) (reg : List String)
    (beh : Nat → String → NodeOutcome) (elapsed : Nat → Bool) :
    Nat → RunState → RunState × SwarmStatus
  | 0, st => (st, .outOfFuel)
  | fuel + 1, st =>
      if elapsed st.iterationCount then (st, .failedTimeoutExecution)
      else if mi ≤ st.iterationCount then (st, .failedMaxIterations)
      else
        let st1 : RunState := { st with history := st.history ++ [st.currentNode] }
        match beh st.history.length st.currentNode with
        | .timedOut => (st1, .failedTimeoutNode)
        | .fault c _m => (st1, .failedError c)
        | .completion m =>
            ({ st1 with context := st1.context ++ [(st.currentNode, m)] }, .completed)
        | .handoff tgt m =>
            if mh ≤ st.handoffCount then (st1, .failedMaxHandoffs)
            else if reg.contains tgt then
              runLoop mh mi reg beh elapsed fuel
                { currentNode := tgt,
                  handoffCount := st.handoffCount + 1,
                  iterationCount := st.iterationCount + 1,
                  history := st1.history,
                  context := st.context ++ [(st.currentNode, m)] }
            else (st1, .failedError "UnknownHandoffTarget")

/-- Modelled from the spec: the initial run state (spec section 4.4 step
1): entry node active, counters at zero, context seeded with the caller's
initial message. -/
def initState (entry prompt : String) : RunState :=
  { currentNode := entry,
    handoffCount := 0,
    iterationCount := 0,
    history := [],
    context := [("user", prompt)] }

/-- Modelled from the spec: a full swarm run under a configuration — the
dispatcher loop from the initial state, with fuel that the max-iterations
guard keeps from running out. -/
def runSwarm (cfg : SwarmConfig) (beh : Nat → String → NodeOutcome)
    (elapsed : Nat → Bool) (prompt : String) : RunState × SwarmStatus :=
  runLoop cfg.max_handoffs cfg.max_iterations cfg.nodes beh elapsed
    (cfg.max_iterations + 1) (initState cfg.entry_point prompt)

/-- Claim C1: with the required credential unset, `create_devto_article`
(for `DEV_TO_API_KEY`) and `upload_image` (for `IMGBB_API_KEY`) return a
status-`"error"` record with a human-readable message, raise no
exception, and attempt no external request. -/
theorem missing_credential_reports_error
    (t b tg d c path : String) (fe : Bool) (rr : Except String String)
    (hd hi : HttpOutcome) :
    create_devto_article none t b tg d c hd =
      (.ok [("status", .jstr "error"),
            ("message", .jstr "DEV_TO_API_KEY environment variable not set")], [])
    ∧ upload_image none path fe rr hi =
      (.ok [("status", .jstr "error"),
            ("message", .jstr "IMGBB_API_KEY environment variable not set. Image will not be uploaded."),
            ("url", .jnull)], []) :=
  ⟨rfl, rfl⟩

/-- Claim C2 (counterexample): a 200 ImgBB response whose JSON body has a
truthy `success` flag but no `data` object makes `upload_image` evaluate
`data["data"]["url"]`, raising an uncaught `KeyError` — the call raises
instead of returning a status/message record, contradicting the claim
that every outcome of the external request yields such a record. -/
theorem upload_image_unstructured_on_malformed_success :
    (upload_image (some "k") "cover.png" true (Except.ok "aGVsbG8=")
      (.resp 200 (.jobj [("success", .jbool true)]) "ok")).1
      = Except.error "KeyError: data" := rfl

/-- Claim C10: `--file` or `--content` as the sole argument is not an
error: the parser falls through to topic mode with the literal flag text
as the topic. -/
theorem dangling_flag_falls_back_to_topic (prog : String) :
    parse_args [prog, "--file"] = some ("topic", "--file")
    ∧ parse_args [prog, "--content"] = some ("topic", "--content") :=
  ⟨rfl, rfl⟩

/-- Claim C5: `create_article_swarm` supplies all four budgets explicitly
at construction — execution timeout 600 s, node timeout 300 s, max
handoffs 10, max iterations 15 — and designates the writer agent, one of
the three constructed agents, as entry point. -/
theorem create_article_swarm_configuration :
    create_article_swarm.max_handoffs = 10
    ∧ create_article_swarm.max_iterations = 15
    ∧ create_article_swarm.execution_timeout = 600
    ∧ create_article_swarm.node_timeout = 300
    ∧ create_article_swarm.entry_point = "writer_agent"
    ∧ create_article_swarm.nodes = ["writer_agent", "image_agent", "publisher_agent"]
    ∧ create_article_swarm.entry_point ∈ create_article_swarm.nodes := by
  refine ⟨rfl, rfl, rfl, rfl, rfl, rfl, ?_⟩
  simp [create_article_swarm]

/-- Claim C8: every article payload `create_devto_article` posts has
`published = False` — the article is always created as a draft, whatever
the inputs. -/
theorem create_devto_article_always_draft
    (api_key : Option String) (t b tg d c : String) (http : HttpOutcome) :
    ∀ a ∈ (create_devto_article api_key t b tg d c http).2, a.published = false := by
  intro a ha
  rcases api_key with _ | k
  · simp [create_devto_article] at ha
  · rcases http with e | ⟨code, body, text⟩ <;>
      dsimp only [create_devto_article] at ha <;>
      repeat' split at ha
    all_goals simp_all [mkArticlePayload]

/-- Claim C9: the tag list in the posted payload is the first (at most) 4
comma-separated segments of the tags string, each stripped, lowercased
and despaced; the description in the payload is truncated to its first
140 characters whenever it is longer than 140. -/
theorem devto_tags_and_description (t b tg d c : String) :
    (mkArticlePayload t b tg d c).tags = ((tg.splitOn ",").take 4).map tagTransform
    ∧ (d.length > 140 → (mkArticlePayload t b tg d c).description = d.take 140) := by
  constructor
  · show ((tg.splitOn ",").map tagTransform).take 4 = _
    exact (List.map_take tagTransform (tg.splitOn ",") 4).symm
  · intro h
    simp [mkArticlePayload, h]

set_option maxRecDepth 4000

/-- Witness for C9 at a concrete over-long description. -/
theorem devto_tags_and_description_witness :
    (String.mk (List.replicate 141 'x')).length > 140
    ∧ (mkArticlePayload "t" "b" "a, B c" (String.mk (List.replicate 141 'x')) "").description
        = (String.mk (List.replicate 141 'x')).take 140 :=
  ⟨by decide, (devto_tags_and_description "t" "b" "a, B c" _ "").2 (by decide)⟩

/-- Witness for C8: a concrete posted payload with `published = false`. -/
theorem create_devto_article_always_draft_witness :
    mkArticlePayload "T" "B" "a,b" "d" "" ∈
      (create_devto_article (some "k") "T" "B" "a,b" "d" "" (.exc "boom")).2
    ∧ (mkArticlePayload "T" "B" "a,b" "d" "").published = false := by
  have hm : mkArticlePayload "T" "B" "a,b" "d" "" ∈
      (create_devto_article (some "k") "T" "B" "a,b" "d" "" (.exc "boom")).2 := by
    show mkArticlePayload "T" "B" "a,b" "d" "" ∈ [mkArticlePayload "T" "B" "a,b" "d" ""]
    exact List.mem_singleton.mpr rfl
  exact ⟨hm,
    create_devto_article_always_draft (some "k") "T" "B" "a,b" "d" "" (.exc "boom") _ hm⟩

/-- Claim C2 (amended): for every credential state and every outcome of
the external request, `create_devto_article` and `upload_image` return a
record with a `"status"` field equal to `"success"` or `"error"` and a
string `"message"` field — provided a success-status response body is
well shaped (a 201 Dev.to body parses to a JSON object; a 200 ImgBB body
parses to an object that, on a truthy `success` flag, holds a `data`
object with a `url` key, and whose `error` field, when present, is an
object).  Outside those shapes the Python code raises instead of
returning a record. -/
theorem tool_results_structured (dk ik : Option String)
    (t b tg d c path : String) (fe : Bool) (rr : Except String String)
    (hd hi : HttpOutcome)
    (h1 : devtoWellShaped hd = true) (h2 : imgbbWellShaped hi = true) :
    toolResultOk (create_devto_article dk t b tg d c hd).1 = true
    ∧ toolResultOk (upload_image ik path fe rr hi).1 = true := by
  constructor
  · rcases dk with _ | k
    · rfl
    · rcases eq_or_ne k "" with hk | hk
      · subst hk; rfl
      · have hkb : (k == "") = false := by simpa using hk
        rcases hd with e | ⟨code, body, text⟩
        · dsimp only [create_devto_article]; rw [hkb]; rfl
        · dsimp only [create_devto_article]; rw [hkb]
          repeat' split
          all_goals first
            | rfl
            | simp_all [devtoWellShaped]
  · rcases ik with _ | k
    · rfl
    · rcases eq_or_ne k "" with hk | hk
      · subst hk; rfl
      · have hkb : (k == "") = false := by simpa using hk
        rcases fe with _ | _
        · dsimp only [upload_image]; rw [hkb]; rfl
        · rcases rr with e | data
          · dsimp only [upload_image]; rw [hkb]; rfl
          · rcases hi with e | ⟨code, body, text⟩
            · dsimp only [upload_image]; rw [hkb]; rfl
            · dsimp only [upload_image]; rw [hkb]
              repeat' split
              all_goals first
                | rfl
                | simp_all [imgbbWellShaped]

/-- Witness for C2 (amended) at concrete well-shaped outcomes. -/
theorem tool_results_structured_witness :
    devtoWellShaped (.exc "boom") = true
    ∧ imgbbWellShaped
        (.resp 200 (.jobj [("success", .jbool true),
          ("data", .jobj [("url", .jstr "https://i.ibb.co/x.png")])]) "ok") = true
    ∧ toolResultOk (create_devto_article (some "k") "T" "B" "a,b" "d" "" (.exc "boom")).1 = true
    ∧ toolResultOk (upload_image (some "i") "c.png" true (.ok "ZX")
        (.resp 200 (.jobj [("success", .jbool true),
          ("data", .jobj [("url", .jstr "https://i.ibb.co/x.png")])]) "ok")).1 = true := by
  have h := tool_results_structured (some "k") (some "i") "T" "B" "a,b" "d" "" "c.png"
    true (.ok "ZX") (.exc "boom")
    (.resp 200 (.jobj [("success", .jbool true),
      ("data", .jobj [("url", .jstr "https://i.ibb.co/x.png")])]) "ok") rfl rfl
  exact ⟨rfl, rfl, h.1, h.2⟩

/-- Claim C4: `generate_article` always returns a dict carrying a
`"status"` key, and an exception raised by the swarm execution is caught
and converted into a status-`"error"` dict holding the error message
(when the swarm is reached at all, i.e. the input is not a failing
`--file` read, which short-circuits with its own error dict). -/
theorem generate_article_structured (d t : String) (f : Except FileErr String)
    (sr : Except String SwarmRes) (e : String) :
    (∃ s, jfind (generate_article d t f sr) "status" = some (.jstr s))
    ∧ (t ≠ "file" ∨ (∃ cnt, f = .ok cnt) →
        generate_article d t f (.error e) =
          [("status", .jstr "error"), ("error", .jstr e)]) := by
  constructor
  · by_cases h1 : t = "topic"
    · subst h1
      cases sr with
      | ok r => exact ⟨r.status, rfl⟩
      | error e2 => exact ⟨"error", rfl⟩
    · by_cases h2 : t = "file"
      · subst h2
        rcases f with fe | cnt
        · cases fe with
          | notFound => exact ⟨"error", rfl⟩
          | other m => exact ⟨"error", rfl⟩
        · cases sr with
          | ok r => exact ⟨r.status, rfl⟩
          | error e2 => exact ⟨"error", rfl⟩
      · have hb1 : (t == "topic") = false := by simpa using h1
        have hb2 : (t == "file") = false := by simpa using h2
        dsimp only [generate_article]; rw [hb1, hb2]
        cases sr with
        | ok r => exact ⟨r.status, rfl⟩
        | error e2 => exact ⟨"error", rfl⟩
  · intro h
    by_cases h1 : t = "topic"
    · subst h1; rfl
    · by_cases h2 : t = "file"
      · subst h2
        rcases h with h | ⟨cnt, hc⟩
        · exact absurd rfl h
        · subst hc; rfl
      · have hb1 : (t == "topic") = false := by simpa using h1
        have hb2 : (t == "file") = false := by simpa using h2
        dsimp only [generate_article]; rw [hb1, hb2]
        rfl

/-- Witness for C4: a raised swarm exception on a topic run becomes the
status-`"error"` dict with the message. -/
theorem generate_article_structured_witness :
    jfind (generate_article "My topic" "topic" (Except.ok "") (.error "boom")) "status"
      = some (.jstr "error")
    ∧ generate_article "My topic" "topic" (Except.ok "") (.error "boom")
        = [("status", .jstr "error"), ("error", .jstr "boom")] := by
  have h2 := (generate_article_structured "My topic" "topic" (Except.ok "")
    (.error "boom") "boom").2 (Or.inl (by decide))
  exact ⟨by rw [h2]; rfl, h2⟩

/-- Claim C6: the parser admits exactly three input modes — `--file` with
a following value, `--content` with a following value, and otherwise the
first argument verbatim as a free-text topic. -/
theorem cli_three_input_modes (prog a1 a2 : String) (rest : List String) :
    parse_args (prog :: "--file" :: a2 :: rest) = some ("file", a2)
    ∧ parse_args (prog :: "--content" :: a2 :: rest) = some ("content", a2)
    ∧ (a1 ≠ "--file" → a1 ≠ "--content" →
        parse_args (prog :: a1 :: rest) = some ("topic", a1)) := by
  refine ⟨rfl, rfl, ?_⟩
  intro h1 h2
  have hb1 : (a1 == "--file") = false := by simpa using h1
  have hb2 : (a1 == "--content") = false := by simpa using h2
  dsimp only [parse_args]; rw [hb1, hb2]; rfl

/-- Witness for C6 at concrete argument vectors. -/
theorem cli_three_input_modes_witness :
    parse_args ["main.py", "--file", "t.txt"] = some ("file", "t.txt")
    ∧ parse_args ["main.py", "--content", "text"] = some ("content", "text")
    ∧ parse_args ["main.py", "My topic"] = some ("topic", "My topic") :=
  ⟨(cli_three_input_modes "main.py" "x" "t.txt" []).1,
   (cli_three_input_modes "main.py" "x" "text" []).2.1,
   (cli_three_input_modes "main.py" "My topic" "" []).2.2 (by decide) (by decide)⟩

/-- Claim C3 (counterexample): with arguments and credential present but
a run terminating in `FAILED_MAX_HANDOFFS`, `main` exits 0 — the CLI does
not exit non-zero on a failing terminal run status, contrary to the
claim. -/
theorem main_exits_zero_on_failed_run :
    mainRun ["main.py", "My topic"] (some "key") (Except.ok "")
        (.ok ⟨"Status.FAILED_MAX_HANDOFFS", [], 0, 0⟩)
      = (0, some [("status", .jstr "Status.FAILED_MAX_HANDOFFS"),
                  ("agents_used", .jlist []),
                  ("iterations", .jnum 0),
                  ("execution_time_ms", .jnum 0),
                  ("result", .jobj [("status", .jstr "Status.FAILED_MAX_HANDOFFS")])]) := rfl

/-- Claim C3 (amended): `main` exits non-zero (1) exactly when fewer than
two argv entries are given or `DEV_TO_API_KEY` is unset or empty; once
validation passes it exits 0 whatever the run produced — a failing
terminal run status does not change the exit code. -/
theorem main_exit_code_characterisation (argv : List String) (devKey : Option String)
    (fileRead : Except FileErr String) (swarmRun : Except String SwarmRes) :
    (mainRun argv devKey fileRead swarmRun).1
      = if argv.length < 2 then 1 else if validate_environment devKey then 0 else 1 := by
  rcases argv with _ | ⟨p, _ | ⟨a1, rest⟩⟩
  · rfl
  · rfl
  · obtain ⟨pr, hpr⟩ : ∃ pr, parse_args (p :: a1 :: rest) = some pr := by
      dsimp only [parse_args]
      repeat' split
      all_goals exact ⟨_, rfl⟩
    have hlen : ¬((p :: a1 :: rest).length < 2) := by
      simp only [List.length_cons]; omega
    rw [if_neg hlen]
    rcases pr with ⟨it, id⟩
    by_cases hv : validate_environment devKey
    · rw [if_pos hv]
      simp [mainRun, hpr, hv]
    · rw [if_neg hv]
      have hvb : validate_environment devKey = false := by simpa using hv
      simp [mainRun, hpr, hvb]

/-- The dispatcher loop never drives the handoff counter past the budget:
the counter only increments under the guard that the budget is not yet
reached. -/
theorem runLoop_handoffs_le (mh mi : Nat) (reg : List String)
    (beh : Nat → String → NodeOutcome) (elapsed : Nat → Bool) :
    ∀ (fuel : Nat) (st : RunState), st.handoffCount ≤ mh →
      ((runLoop mh mi reg beh elapsed fuel st).1).handoffCount ≤ mh := by
  intro fuel
  induction fuel with
  | zero => intro st h; exact h
  | succ n ih =>
      intro st h
      simp only [runLoop]
      split
      · exact h
      · split
        · exact h
        · split
          · exact h
          · exact h
          · exact h
          · rename_i tgt m _heq
            by_cases hb : mh ≤ st.handoffCount
            · rw [if_pos hb]; exact h
            · rw [if_neg hb]
              split
              · exact ih _ (by show st.handoffCount + 1 ≤ mh; omega)
              · exact h

/-- Claim C7, over the dispatcher modelled from the spec with the budgets
of `create_article_swarm`: (1) at termination the handoff count never
exceeds the configured max-handoffs budget; (2) a run whose current node
directs a further handoff while the budget is already consumed terminates
with `failedMaxHandoffs`, recording the directing node but never invoking
the target. -/
theorem swarm_handoff_budget
    (beh : Nat → String → NodeOutcome) (elapsed : Nat → Bool) (prompt : String)
    (st : RunState) (fuel : Nat) (tgt m : String) :
    ((runSwarm create_article_swarm beh elapsed prompt).1).handoffCount
        ≤ create_article_swarm.max_handoffs
    ∧ (elapsed st.iterationCount = false →
       st.iterationCount < create_article_swarm.max_iterations →
       create_article_swarm.max_handoffs ≤ st.handoffCount →
       beh st.history.length st.currentNode = .handoff tgt m →
       runLoop create_article_swarm.max_handoffs create_article_swarm.max_iterations
           create_article_swarm.nodes beh elapsed (fuel + 1) st
         = ({ st with history := st.history ++ [st.currentNode] }, .failedMaxHandoffs)) := by
  constructor
  · exact runLoop_handoffs_le create_article_swarm.max_handoffs
      create_article_swarm.max_iterations create_article_swarm.nodes beh elapsed
      (create_article_swarm.max_iterations + 1)
      (initState create_article_swarm.entry_point prompt) (Nat.zero_le _)
  · intro h1 h2 h3 h4
    have hnm : ¬(create_article_swarm.max_iterations ≤ st.iterationCount) := not_le.mpr h2
    simp only [runLoop, h1, Bool.false_eq_true, if_false, if_neg hnm, h4, if_pos h3]

/-- Witness for C7: a run that completes immediately respects the budget,
and a state with the 10-handoff budget consumed and a handoff directive
pending terminates with `failedMaxHandoffs` without invoking the target. -/
theorem swarm_handoff_budget_witness :
    ((runSwarm create_article_swarm (fun _ _ => .handoff "image_agent" "go")
        (fun _ => false) "start").1).handoffCount ≤ create_article_swarm.max_handoffs
    ∧ runLoop create_article_swarm.max_handoffs create_article_swarm.max_iterations
        create_article_swarm.nodes (fun _ _ => .handoff "image_agent" "go")
        (fun _ => false) 1 ⟨"writer_agent", 10, 3, [], []⟩
      = (⟨"writer_agent", 10, 3, ["writer_agent"], []⟩, .failedMaxHandoffs) := by
  have h := swarm_handoff_budget (fun _ _ => .handoff "image_agent" "go")
    (fun _ => false) "start" ⟨"writer_agent", 10, 3, [], []⟩ 0 "image_agent" "go"
  refine ⟨h.1, ?_⟩
  have h2 := h.2 rfl (by decide) (by decide) rfl
  simpa using h2
